import Mathlib

/-!
Verification of the transport-management core of bluez-alsa (BlueALSA).

The repository ships the header `src/transport.h`, which fixes the data
model (enums, `ba_device`, `ba_pcm`, `ba_transport`) and declares the
operations. The implementation file (`transport.c`) is not part of the
sources available here, so every operation below is modelled from the
natural-language specification; the types follow the header faithfully.
Machine integers are modelled as `Nat` (unsigned) or `Int` (signed),
pointers between entities as registry indices (`Nat`), and the signalling
pipe as the list of bytes currently in flight.
-/

namespace BlueALSA

/-- `enum ba_transport_type` from transport.h. -/
inductive BaTransportType where
  | A2DP
  | RFCOMM
  | SCO
  deriving DecidableEq, Repr

/-- `enum ba_transport_state` from transport.h: idle, pending, active,
paused, and limbo (the eviction state). -/
inductive BaTransportState where
  | IDLE
  | PENDING
  | ACTIVE
  | PAUSED
  | LIMBO
  deriving DecidableEq, Repr

/-- `enum ba_transport_signal` from transport.h. -/
inductive BaTransportSignal where
  | BT_OPEN
  | PCM_OPEN
  | PCM_CLOSE
  | PCM_PAUSE
  | PCM_RESUME
  | PCM_SYNC
  | PCM_DROP
  | SET_VOLUME
  | SEND_RFCOMM
  deriving DecidableEq, Repr

/-- The byte written into the signalling pipe for a given signal kind
(the ordinal of the enumerator, as in the C enum). -/
def BaTransportSignal.toByte : BaTransportSignal → Nat
  | .BT_OPEN => 0
  | .PCM_OPEN => 1
  | .PCM_CLOSE => 2
  | .PCM_PAUSE => 3
  | .PCM_RESUME => 4
  | .PCM_SYNC => 5
  | .PCM_DROP => 6
  | .SET_VOLUME => 7
  | .SEND_RFCOMM => 8

/-- `struct ba_pcm` from transport.h: a FIFO file descriptor and the
associated client identifier. The closed sentinel for both is `-1`. -/
structure BaPcm where
  fd : Int
  client : Int
  deriving DecidableEq, Repr

/-- The battery sub-structure of `struct ba_device`. -/
structure BaBattery where
  enabled : Bool
  level : Nat
  deriving DecidableEq, Repr

/-- The `xapl` (Apple HFP extension) sub-structure of `struct ba_device`. -/
structure BaXapl where
  vendor_id : Nat
  product_id : Nat
  version : Nat
  features : Nat
  accev_docked : Nat
  deriving DecidableEq, Repr

/-- The A2DP member of the payload union in `struct ba_transport`. -/
structure A2dpPayload where
  ch1_muted : Nat
  ch2_muted : Nat
  ch1_volume : Nat
  ch2_volume : Nat
  delay : Nat
  pcm : BaPcm
  cconfig : List Nat
  bt_fd_coutq_init : Int
  deriving DecidableEq, Repr

/-- The RFCOMM member of the payload union in `struct ba_transport`.
The associated SCO transport pointer is a registry index (absent = NULL). -/
structure RfcommPayload where
  sco : Option Nat
  hfp_features : Nat
  hfp_inds : List Nat
  deriving DecidableEq, Repr

/-- The SCO member of the payload union in `struct ba_transport`.
The parent RFCOMM transport pointer is a registry index (absent = NULL). -/
structure ScoPayload where
  ofono : Bool
  rfcomm : Option Nat
  spk_muted : Bool
  mic_muted : Bool
  spk_gain : Nat
  mic_gain : Nat
  spk_pcm : BaPcm
  mic_pcm : BaPcm
  deriving DecidableEq, Repr

/-- The profile-specific payload union of `struct ba_transport`,
rendered as a sum type with exactly one active variant. -/
inductive TransportPayload where
  | a2dp (p : A2dpPayload)
  | rfcomm (p : RfcommPayload)
  | sco (p : ScoPayload)
  deriving DecidableEq, Repr

/-- `struct ba_transport` from transport.h. The owning device and the
IO thread identifier are indices/handles; the signalling pipe
`sig_fd` is modelled by the list of bytes written to its write end and
not yet drained. -/
structure BaTransport where
  device : Nat
  type : BaTransportType
  dbus_owner : String
  dbus_path : String
  profile : Nat
  codec : Nat
  state : BaTransportState
  thread : Option Nat
  bt_fd : Int
  mtu_read : Nat
  mtu_write : Nat
  sig_pipe : List Nat
  delay : Nat
  payload : TransportPayload
  cleanup_lock : Bool
  deriving DecidableEq, Repr

/-- Modelled from the spec: `transport_set_state` (transport.c is not in
the sources). Under the transport mutex it rejects the request, reporting
failure and leaving the state untouched, when the transport is already in
`TRANSPORT_LIMBO` (limbo is terminal), and otherwise applies the new
state and reports success. The mutex and the IO-thread wake-up through
the control pipe are concurrency mechanics outside this sequential
model. -/
def transport_set_state (t : BaTransport) (state : BaTransportState) :
    Int × BaTransport :=
  if t.state = BaTransportState.LIMBO then
    (-1, t)
  else
    (0, { t with state := state })

/-- Apply a whole sequence of `transport_set_state` requests, collecting
the list of return codes alongside the final transport. -/
def set_state_trace (t : BaTransport) : List BaTransportState → List Int × BaTransport
  | [] => ([], t)
  | s :: ss =>
      let r := transport_set_state t s
      let rest := set_state_trace r.2 ss
      (r.1 :: rest.1, rest.2)

/-- Modelled from the spec: `transport_release_pcm` (transport.c is not
in the sources). It closes the consumer-facing pipe endpoint, leaving
the descriptor at the closed sentinel `-1`, clears the associated
client (owner) identifier, and reports success; a second invocation is
not an error (already-released is swallowed by the idempotent release
semantics). -/
def transport_release_pcm (pcm : BaPcm) : Int × BaPcm :=
  (0, { pcm with fd := -1, client := -1 })

/-- Modelled from the spec: the `release` operation installed on every
transport at construction (transport.c and the per-profile installers
are not in the sources). It closes the Bluetooth-side socket, always
leaving `bt_fd` at the closed sentinel `-1`, and reports success even
when the transport is already released. -/
def transport_release (t : BaTransport) : Int × BaTransport :=
  (0, { t with bt_fd := -1 })

/-- Modelled from the spec: the outcome of asking the underlying
connectivity stack for a media/voice link, as seen by the installed
`acquire` operation. -/
inductive StackOutcome where
  | granted (fd : Int)
  | refused
  deriving DecidableEq, Repr

/-- Modelled from the spec: the `acquire` operation installed on every
transport at construction (transport.c and the per-profile installers
are not in the sources). When the underlying stack grants the link the
obtained socket is stored in `bt_fd` and success is reported; when the
stack refuses the link, a distinct error is reported to the caller and
the transport is left exactly in its prior state. -/
def transport_acquire (outcome : StackOutcome) (t : BaTransport) :
    Int × BaTransport :=
  match outcome with
  | .granted fd => (0, { t with bt_fd := fd })
  | .refused => (-1, t)

/-- Modelled from the spec: `transport_send_signal` (transport.c is not
in the sources). It writes exactly one byte, tagged with the signal
kind, into the write end of the transport's signalling pipe
(`sig_fd[1]`) and reports success. -/
def transport_send_signal (t : BaTransport) (sig : BaTransportSignal) :
    Int × BaTransport :=
  (0, { t with sig_pipe := t.sig_pipe ++ [sig.toByte] })

/-- `HCI_MAX_NAME_LENGTH` from bluetooth/hci.h, the size of the
fixed-size `name` field of `struct ba_device`. -/
def HCI_MAX_NAME_LENGTH : Nat := 248

/-- `struct ba_device` from transport.h. The Bluetooth address is a
`Nat` rendering of `bdaddr_t`, the name field the list of bytes it
holds (at most `HCI_MAX_NAME_LENGTH` of them), and the hash-map of
connected transports an association list keyed by the D-Bus path. -/
structure BaDevice where
  hci_dev_id : Int
  addr : Nat
  name : List Nat
  battery : BaBattery
  xapl : BaXapl
  transports : List (String × BaTransport)
  deriving DecidableEq, Repr

/-- Modelled from the spec: `device_new` (transport.c is not in the
sources). It builds a device with an empty transport collection,
battery reporting disabled, and zeroed vendor-extension fields; the
supplied name is copied into the fixed-size name field, silently
truncated to the `HCI_MAX_NAME_LENGTH` bytes the field can hold. -/
def device_new (hci_dev_id : Int) (addr : Nat) (name : List Nat) : BaDevice :=
  { hci_dev_id := hci_dev_id
    addr := addr
    name := name.take HCI_MAX_NAME_LENGTH
    battery := { enabled := false, level := 0 }
    xapl := { vendor_id := 0, product_id := 0, version := 0,
              features := 0, accev_docked := 0 }
    transports := [] }

/-- Modelled from the spec: `device_set_battery_level` (transport.c is
not in the sources). It clamps the value to the range [0, 100] (the
value is an unsigned byte, so only the upper bound can be exceeded),
enables battery reporting, and records the clamped value. -/
def device_set_battery_level (d : BaDevice) (value : Nat) : BaDevice :=
  { d with battery := { enabled := true, level := min value 100 } }

/-- Look up a D-Bus path in one device's transport collection. -/
def transports_lookup : List (String × BaTransport) → String → Option BaTransport
  | [], _ => none
  | kv :: kvs, path =>
      if kv.1 = path then some kv.2 else transports_lookup kvs path

/-- Modelled from the spec: `transport_lookup` (transport.c is not in
the sources). It walks the registry of devices and returns the
transport registered under the given D-Bus path, or not-found. -/
def transport_lookup : List BaDevice → String → Option BaTransport
  | [], _ => none
  | d :: ds, path =>
      match transports_lookup d.transports path with
      | some t => some t
      | none => transport_lookup ds path

/-- Remove a D-Bus path from one device's transport collection,
reporting whether it was present. -/
def transports_remove : List (String × BaTransport) → String →
    Bool × List (String × BaTransport)
  | [], _ => (false, [])
  | kv :: kvs, path =>
      if kv.1 = path then (true, kvs)
      else
        let r := transports_remove kvs path
        (r.1, kv :: r.2)

/-- Modelled from the spec: `transport_remove` (transport.c is not in
the sources). It removes and destroys the transport registered under
the given D-Bus path and returns whether a transport was present. -/
def transport_remove : List BaDevice → String → Bool × List BaDevice
  | [], _ => (false, [])
  | d :: ds, path =>
      let r := transports_remove d.transports path
      if r.1 then (true, { d with transports := r.2 } :: ds)
      else
        let rest := transport_remove ds path
        (rest.1, d :: rest.2)

/-- Modelled from the spec: `device_free` (transport.c is not in the
sources), seen at the registry level. Destroying the device keyed by
the given Bluetooth address destroys every transport it owns and then
releases the device itself, so the whole entry disappears from the
registry of devices. -/
def device_free (devices : List BaDevice) (addr : Nat) : List BaDevice :=
  devices.filter (fun d => d.addr ≠ addr)

/-- Modelled from the spec: the operation of this core that sets an
A2DP channel volume (transport.c and its D-Bus callers are not in the
sources). A value outside the range [0, 127] documented for
`ch1_volume`/`ch2_volume` is rejected with an error and the payload is
left unchanged; an in-range value is stored in the selected channel. -/
def a2dp_set_volume (p : A2dpPayload) (ch1 : Bool) (value : Nat) :
    Int × A2dpPayload :=
  if 127 < value then (-1, p)
  else
    (0, if ch1 then { p with ch1_volume := value }
        else { p with ch2_volume := value })

/-- Modelled from the spec: the operation of this core that sets a SCO
speaker or microphone gain (transport.c and its D-Bus callers are not
in the sources). A value outside the range [0, 15] documented for
`spk_gain`/`mic_gain` is rejected with an error and the payload is left
unchanged; an in-range value is stored in the selected channel. -/
def sco_set_gain (p : ScoPayload) (spk : Bool) (value : Nat) :
    Int × ScoPayload :=
  if 15 < value then (-1, p)
  else
    (0, if spk then { p with spk_gain := value }
        else { p with mic_gain := value })

/-- The registry of transports indexed by a handle, used to model the
RFCOMM↔SCO pointer cross-links as non-owning indices. -/
def store_lookup : List (Nat × BaTransport) → Nat → Option BaTransport
  | [], _ => none
  | kv :: kvs, i => if kv.1 = i then some kv.2 else store_lookup kvs i

/-- Rewrite every binding of the given handle with `f`. -/
def store_update : List (Nat × BaTransport) → Nat →
    (BaTransport → BaTransport) → List (Nat × BaTransport)
  | [], _, _ => []
  | kv :: kvs, i, f =>
      (if kv.1 = i then (kv.1, f kv.2) else kv) :: store_update kvs i f

/-- Drop every binding of the given handle. -/
def store_remove : List (Nat × BaTransport) → Nat → List (Nat × BaTransport)
  | [], _ => []
  | kv :: kvs, i =>
      if kv.1 = i then store_remove kvs i else kv :: store_remove kvs i

/-- Clear the `rfcomm.sco` cross-link of an RFCOMM payload; any other
payload is untouched. -/
def clear_sco_payload : TransportPayload → TransportPayload
  | TransportPayload.rfcomm p => TransportPayload.rfcomm { p with sco := none }
  | x => x

/-- Clear the `sco.rfcomm` cross-link of a SCO payload; any other
payload is untouched. -/
def clear_rfcomm_payload : TransportPayload → TransportPayload
  | TransportPayload.sco p => TransportPayload.sco { p with rfcomm := none }
  | x => x

/-- Clear a transport's reference to a SCO transport. -/
def clear_sco_ref (t : BaTransport) : BaTransport :=
  { t with payload := clear_sco_payload t.payload }

/-- Clear a transport's reference to its parent RFCOMM transport. -/
def clear_rfcomm_ref (t : BaTransport) : BaTransport :=
  { t with payload := clear_rfcomm_payload t.payload }

/-- Modelled from the spec: `transport_free` (transport.c is not in the
sources), seen at the registry level. Destroying a transport must also
clear the opposite-side RFCOMM↔SCO reference so it never dangles, and
then removes the transport itself; socket and memory teardown are not
part of this model. -/
def transport_free (w : List (Nat × BaTransport)) (i : Nat) :
    List (Nat × BaTransport) :=
  match store_lookup w i with
  | none => w
  | some t =>
      match t.payload with
      | TransportPayload.a2dp _ => store_remove w i
      | TransportPayload.rfcomm p =>
          match p.sco with
          | some s => store_remove (store_update w s clear_rfcomm_ref) i
          | none => store_remove w i
      | TransportPayload.sco p =>
          match p.rfcomm with
          | some r => store_remove (store_update w r clear_sco_ref) i
          | none => store_remove w i

/-- The RFCOMM↔SCO cross-link invariant: an RFCOMM transport's `sco`
field points to a SCO transport exactly when that SCO transport's
`rfcomm` field points back to it (otherwise both are absent). -/
def rfcomm_sco_consistent (w : List (Nat × BaTransport)) : Prop :=
  ∀ i t, store_lookup w i = some t →
    (∀ p s, t.payload = TransportPayload.rfcomm p → p.sco = some s →
      ∃ u q, store_lookup w s = some u ∧
        u.payload = TransportPayload.sco q ∧ q.rfcomm = some i) ∧
    (∀ p r, t.payload = TransportPayload.sco p → p.rfcomm = some r →
      ∃ u q, store_lookup w r = some u ∧
        u.payload = TransportPayload.rfcomm q ∧ q.sco = some i)

end BlueALSA

namespace BlueALSA

/-- A concrete transport used to instantiate hypotheses of the theorems
on concrete inputs. -/
def sampleTransport : BaTransport :=
  { device := 0
    type := BaTransportType.A2DP
    dbus_owner := ":1.42"
    dbus_path := "/org/bluez/hci0/dev_00/fd1"
    profile := 1
    codec := 0
    state := BaTransportState.IDLE
    thread := none
    bt_fd := -1
    mtu_read := 0
    mtu_write := 0
    sig_pipe := []
    delay := 0
    payload := TransportPayload.a2dp
      { ch1_muted := 0
        ch2_muted := 0
        ch1_volume := 127
        ch2_volume := 127
        delay := 0
        pcm := { fd := -1, client := -1 }
        cconfig := []
        bt_fd_coutq_init := 0 }
    cleanup_lock := false }

/-- A concrete device owning one transport, used to instantiate the
registry theorems. -/
def demoDevice : BaDevice :=
  { hci_dev_id := 0
    addr := 1
    name := []
    battery := { enabled := false, level := 0 }
    xapl := { vendor_id := 0, product_id := 0, version := 0,
              features := 0, accev_docked := 0 }
    transports := [("/org/bluez/hci0/dev_00/fd1", sampleTransport)] }

/-- A second concrete device, with a transport under a different path. -/
def demoDevice2 : BaDevice :=
  { demoDevice with
      addr := 2
      transports :=
        [("/org/bluez/hci0/dev_11/fd2",
          { sampleTransport with dbus_path := "/org/bluez/hci0/dev_11/fd2" })] }

/-- A concrete registry of devices. -/
def demoRegistry : List BaDevice := [demoDevice, demoDevice2]

/-- A concrete A2DP payload with in-range volumes. -/
def sampleA2dpPayload : A2dpPayload :=
  { ch1_muted := 0
    ch2_muted := 0
    ch1_volume := 100
    ch2_volume := 50
    delay := 0
    pcm := { fd := -1, client := -1 }
    cconfig := []
    bt_fd_coutq_init := 0 }

/-- A concrete SCO payload with in-range gains, whose parent RFCOMM
transport is the handle 0. -/
def scoDemoPayload : ScoPayload :=
  { ofono := false
    rfcomm := some 0
    spk_muted := false
    mic_muted := false
    spk_gain := 10
    mic_gain := 12
    spk_pcm := { fd := -1, client := -1 }
    mic_pcm := { fd := -1, client := -1 } }

/-- A concrete RFCOMM payload whose associated SCO transport is the
handle 1. -/
def rfcommDemoPayload : RfcommPayload :=
  { sco := some 1
    hfp_features := 0
    hfp_inds := [] }

/-- A concrete RFCOMM transport linked to the SCO transport at handle 1. -/
def rfcommDemo : BaTransport :=
  { sampleTransport with
      type := BaTransportType.RFCOMM
      payload := TransportPayload.rfcomm rfcommDemoPayload }

/-- A concrete SCO transport linked back to the RFCOMM transport at
handle 0. -/
def scoDemo : BaTransport :=
  { sampleTransport with
      type := BaTransportType.SCO
      payload := TransportPayload.sco scoDemoPayload }

/-- A concrete transport store holding one mutually linked RFCOMM/SCO
pair. -/
def linkDemoStore : List (Nat × BaTransport) := [(0, rfcommDemo), (1, scoDemo)]

theorem set_state_limbo_step (t : BaTransport)
    (h : t.state = BaTransportState.LIMBO) (s : BaTransportState) :
    (transport_set_state t s).1 = -1 ∧
      (transport_set_state t s).2 = t := by
  simp [transport_set_state, h]

/-- Claim C1: once a transport's state is `TRANSPORT_LIMBO`, every
subsequent `transport_set_state` call — for any requested new state —
returns failure (`-1`) and the state field remains `TRANSPORT_LIMBO`;
limbo is terminal. -/
theorem limbo_is_terminal (t : BaTransport) (ss : List BaTransportState)
    (h : t.state = BaTransportState.LIMBO) :
    (set_state_trace t ss).1 = ss.map (fun _ => -1) ∧
      (set_state_trace t ss).2.state = BaTransportState.LIMBO := by
  induction ss generalizing t with
  | nil => simpa [set_state_trace] using h
  | cons s ss ih =>
      have hstep := set_state_limbo_step t h s
      have hrest := ih (transport_set_state t s).2 (by rw [hstep.2]; exact h)
      simp only [set_state_trace, List.map_cons]
      exact ⟨by rw [hstep.1, hrest.1], hrest.2⟩

/-- Claim C2: `release` and `transport_release_pcm` are idempotent:
calling either twice in succession yields the same observable state as
calling it once (the fd is the closed sentinel `-1`, the pcm client
identifier is cleared) and the second call does not return an error. -/
theorem release_idempotent (pcm : BaPcm) (t : BaTransport) :
    (transport_release_pcm (transport_release_pcm pcm).2).2 =
        (transport_release_pcm pcm).2 ∧
      (transport_release_pcm (transport_release_pcm pcm).2).1 = 0 ∧
      (transport_release_pcm pcm).2.fd = -1 ∧
      (transport_release_pcm pcm).2.client = -1 ∧
      (transport_release (transport_release t).2).2 =
        (transport_release t).2 ∧
      (transport_release (transport_release t).2).1 = 0 ∧
      (transport_release t).2.bt_fd = -1 := by
  simp [transport_release_pcm, transport_release]

/-- Claim C5: `transport_send_signal` writes exactly one byte, tagged
with the signal kind, into the write end of the transport's signalling
pipe, and reports success. -/
theorem send_signal_writes_one_byte (t : BaTransport) (sig : BaTransportSignal) :
    (transport_send_signal t sig).2.sig_pipe = t.sig_pipe ++ [sig.toByte] ∧
      (transport_send_signal t sig).2.sig_pipe.length = t.sig_pipe.length + 1 ∧
      sig.toByte < 256 ∧
      (transport_send_signal t sig).1 = 0 := by
  refine ⟨rfl, by simp [transport_send_signal], ?_, rfl⟩
  cases sig <;> simp [BaTransportSignal.toByte]

/-- Claim C7: when the underlying stack refuses the link, the installed
`acquire` operation reports a distinct error to the caller and the
transport's observable state (state field, `bt_fd`, and every other
field) remains exactly what it was before the call. -/
theorem acquire_failure_atomic (t : BaTransport) :
    (transport_acquire StackOutcome.refused t).1 = -1 ∧
      (transport_acquire StackOutcome.refused t).1 ≠ 0 ∧
      (transport_acquire StackOutcome.refused t).2 = t := by
  simp [transport_acquire]

/-- Witness for C1: a concrete limbo transport, with two subsequent
requests, both failing and leaving the state in limbo. -/
theorem limbo_is_terminal_witness :
    ({ sampleTransport with state := BaTransportState.LIMBO } :
        BaTransport).state = BaTransportState.LIMBO ∧
      (set_state_trace
          { sampleTransport with state := BaTransportState.LIMBO }
          [BaTransportState.ACTIVE, BaTransportState.IDLE]).1 =
        [-1, -1] ∧
      (set_state_trace
          { sampleTransport with state := BaTransportState.LIMBO }
          [BaTransportState.ACTIVE, BaTransportState.IDLE]).2.state =
        BaTransportState.LIMBO := by
  refine ⟨rfl, ?_⟩
  have h := limbo_is_terminal
    { sampleTransport with state := BaTransportState.LIMBO }
    [BaTransportState.ACTIVE, BaTransportState.IDLE] rfl
  simpa using h

/-- Claim C6: `device_set_battery_level` clamps the value to the range
[0, 100], sets the battery enabled flag, and records the clamped value;
in particular 150 is stored as 100, and the boundary values 0, 100, 101
follow the same clamping policy. -/
theorem set_battery_level_clamps (d : BaDevice) (value : Nat) :
    (device_set_battery_level d value).battery.enabled = true ∧
      (device_set_battery_level d value).battery.level = min value 100 ∧
      (device_set_battery_level d value).battery.level ≤ 100 ∧
      (device_set_battery_level d 150).battery.level = 100 ∧
      (device_set_battery_level d 0).battery.level = 0 ∧
      (device_set_battery_level d 100).battery.level = 100 ∧
      (device_set_battery_level d 101).battery.level = 100 :=
  ⟨rfl, rfl, Nat.min_le_right _ _, rfl, rfl, rfl, rfl⟩

/-- Claim C10: `device_new` stores at most `HCI_MAX_NAME_LENGTH` bytes
of the supplied name in the device's fixed-size name field: a longer
name is silently truncated, and the stored name of a freshly created
device is a prefix of the supplied name. -/
theorem device_new_truncates_name (hci_dev_id : Int) (addr : Nat)
    (name : List Nat) :
    (device_new hci_dev_id addr name).name = name.take HCI_MAX_NAME_LENGTH ∧
      (device_new hci_dev_id addr name).name.length =
        min HCI_MAX_NAME_LENGTH name.length ∧
      (device_new hci_dev_id addr name).name.length ≤ HCI_MAX_NAME_LENGTH ∧
      (device_new hci_dev_id addr name).name ++
          name.drop HCI_MAX_NAME_LENGTH = name := by
  refine ⟨rfl, ?_, ?_, ?_⟩
  · simp [device_new]
  · simp [device_new]
  · simp [device_new]

theorem transports_remove_of_lookup_none
    (kvs : List (String × BaTransport)) (path : String)
    (h : transports_lookup kvs path = none) :
    transports_remove kvs path = (false, kvs) := by
  induction kvs with
  | nil => rfl
  | cons kv kvs ih =>
      by_cases hk : kv.1 = path
      · simp [transports_lookup, hk] at h
      · simp only [transports_lookup, if_neg hk] at h
        simp [transports_remove, if_neg hk, ih h]

/-- Claim C9: when no transport is registered under the given path,
`transport_remove` returns `false` and leaves every device's transport
collection unchanged. -/
theorem remove_absent_path_noop (devices : List BaDevice) (path : String)
    (h : transport_lookup devices path = none) :
    transport_remove devices path = (false, devices) := by
  induction devices with
  | nil => rfl
  | cons d ds ih =>
      cases hl : transports_lookup d.transports path with
      | some t => simp [transport_lookup, hl] at h
      | none =>
          simp only [transport_lookup, hl] at h
          simp [transport_remove, transports_remove_of_lookup_none _ _ hl, ih h]

/-- Witness for C9: a concrete registry and a path registered nowhere;
`transport_remove` reports absence and changes nothing. -/
theorem remove_absent_path_noop_witness :
    transport_lookup demoRegistry "/absent" = none ∧
      transport_remove demoRegistry "/absent" = (false, demoRegistry) :=
  ⟨by decide, remove_absent_path_noop demoRegistry "/absent" (by decide)⟩

/-- Claim C4: destroying a device removes and destroys every transport
it owns; afterwards `transport_lookup` on any path that was registered
only under that device (its own transports' paths) returns
not-found. -/
theorem device_free_lookup_none (devices : List BaDevice) (addr : Nat)
    (path : String)
    (h : ∀ d ∈ devices, transports_lookup d.transports path ≠ none →
      d.addr = addr) :
    transport_lookup (device_free devices addr) path = none := by
  induction devices with
  | nil => rfl
  | cons d ds ih =>
      have hrest : ∀ d2 ∈ ds,
          transports_lookup d2.transports path ≠ none → d2.addr = addr :=
        fun d2 hd2 => h d2 (List.mem_cons_of_mem d hd2)
      by_cases hd : d.addr = addr
      · have heq : device_free (d :: ds) addr = device_free ds addr := by
          simp [device_free, List.filter_cons, hd]
        rw [heq]
        exact ih hrest
      · have hl : transports_lookup d.transports path = none := by
          by_cases hne : transports_lookup d.transports path = none
          · exact hne
          · exact absurd (h d (List.mem_cons_self d ds) hne) hd
        have heq : device_free (d :: ds) addr = d :: device_free ds addr := by
          simp [device_free, List.filter_cons, hd]
        rw [heq]
        simp only [transport_lookup, hl]
        exact ih hrest

/-- Claim C8: the volume-setting operation for A2DP rejects values
outside [0, 127], so `ch1_volume`/`ch2_volume` stay within [0, 127];
the gain-setting operation for SCO rejects values outside [0, 15], so
`spk_gain`/`mic_gain` stay within [0, 15]. -/
theorem volume_gain_in_range (p : A2dpPayload) (q : ScoPayload)
    (ch1 spk : Bool) (v g : Nat)
    (hp1 : p.ch1_volume ≤ 127) (hp2 : p.ch2_volume ≤ 127)
    (hq1 : q.spk_gain ≤ 15) (hq2 : q.mic_gain ≤ 15) :
    (127 < v → a2dp_set_volume p ch1 v = (-1, p)) ∧
      (a2dp_set_volume p ch1 v).2.ch1_volume ≤ 127 ∧
      (a2dp_set_volume p ch1 v).2.ch2_volume ≤ 127 ∧
      (15 < g → sco_set_gain q spk g = (-1, q)) ∧
      (sco_set_gain q spk g).2.spk_gain ≤ 15 ∧
      (sco_set_gain q spk g).2.mic_gain ≤ 15 := by
  refine ⟨?_, ?_, ?_, ?_, ?_, ?_⟩
  · intro hv; simp [a2dp_set_volume, hv]
  · by_cases hv : 127 < v
    · simpa [a2dp_set_volume, hv] using hp1
    · cases ch1 <;> simp [a2dp_set_volume, hv, hp1]
      omega
  · by_cases hv : 127 < v
    · simpa [a2dp_set_volume, hv] using hp2
    · cases ch1 <;> simp [a2dp_set_volume, hv, hp2]
      omega
  · intro hg; simp [sco_set_gain, hg]
  · by_cases hg : 15 < g
    · simpa [sco_set_gain, hg] using hq1
    · cases spk <;> simp [sco_set_gain, hg, hq1]
      omega
  · by_cases hg : 15 < g
    · simpa [sco_set_gain, hg] using hq2
    · cases spk <;> simp [sco_set_gain, hg, hq2]
      omega

/-- Witness for C8: concrete in-range payloads, an out-of-range volume
request (200) and an out-of-range gain request (20) are both rejected
and the stored values stay in range. -/
theorem volume_gain_in_range_witness :
    sampleA2dpPayload.ch1_volume ≤ 127 ∧ sampleA2dpPayload.ch2_volume ≤ 127 ∧
      scoDemoPayload.spk_gain ≤ 15 ∧ scoDemoPayload.mic_gain ≤ 15 ∧
      ((127 < 200 → a2dp_set_volume sampleA2dpPayload true 200 =
          (-1, sampleA2dpPayload)) ∧
        (a2dp_set_volume sampleA2dpPayload true 200).2.ch1_volume ≤ 127 ∧
        (a2dp_set_volume sampleA2dpPayload true 200).2.ch2_volume ≤ 127 ∧
        (15 < 20 → sco_set_gain scoDemoPayload true 20 =
          (-1, scoDemoPayload)) ∧
        (sco_set_gain scoDemoPayload true 20).2.spk_gain ≤ 15 ∧
        (sco_set_gain scoDemoPayload true 20).2.mic_gain ≤ 15) :=
  ⟨by decide, by decide, by decide, by decide,
    volume_gain_in_range sampleA2dpPayload scoDemoPayload true true 200 20
      (by decide) (by decide) (by decide) (by decide)⟩

theorem store_lookup_update (w : List (Nat × BaTransport)) (i : Nat)
    (f : BaTransport → BaTransport) (j : Nat) :
    store_lookup (store_update w i f) j =
      if j = i then (store_lookup w j).map f else store_lookup w j := by
  induction w with
  | nil => simp [store_update, store_lookup]
  | cons kv kvs ih =>
      by_cases hk : kv.1 = i
      · by_cases hj : j = i
        · subst hj
          simp [store_update, store_lookup, hk, ih]
        · have hkj : ¬ kv.1 = j := fun he => hj (he ▸ hk)
          have hij : ¬ i = j := fun he => hj he.symm
          simp [store_update, store_lookup, hk, hkj, ih, hj, hij]
      · by_cases hj : kv.1 = j
        · have hji : ¬ j = i := fun he => hk (hj.symm ▸ he)
          simp [store_update, store_lookup, hk, hj, hji]
        · simp [store_update, store_lookup, hk, hj, ih]

theorem store_lookup_remove (w : List (Nat × BaTransport)) (i j : Nat)
    (h : ¬ j = i) :
    store_lookup (store_remove w i) j = store_lookup w j := by
  induction w with
  | nil => rfl
  | cons kv kvs ih =>
      by_cases hk : kv.1 = i
      · have hkj : ¬ kv.1 = j := fun he => h (by rw [← he, hk])
        have hij : ¬ i = j := fun he => h he.symm
        simp [store_remove, store_lookup, hk, hkj, ih, hij]
      · by_cases hj : kv.1 = j
        · simp [store_remove, store_lookup, hk, hj, h]
        · simp [store_remove, store_lookup, hk, hj, ih, h]

theorem store_lookup_remove_self (w : List (Nat × BaTransport)) (i : Nat) :
    store_lookup (store_remove w i) i = none := by
  induction w with
  | nil => rfl
  | cons kv kvs ih =>
      by_cases hk : kv.1 = i
      · simp [store_remove, hk, ih]
      · simp [store_remove, store_lookup, hk, ih]

theorem consistent_remove (w : List (Nat × BaTransport)) (i : Nat)
    (h : rfcomm_sco_consistent w)
    (hno : ∀ j t, store_lookup w j = some t → ¬ j = i →
      (∀ p s, t.payload = TransportPayload.rfcomm p → p.sco = some s →
        ¬ s = i) ∧
      (∀ p r, t.payload = TransportPayload.sco p → p.rfcomm = some r →
        ¬ r = i)) :
    rfcomm_sco_consistent (store_remove w i) := by
  intro j t hj
  have hji : ¬ j = i := by
    intro he
    rw [he, store_lookup_remove_self] at hj
    exact Option.noConfusion hj
  rw [store_lookup_remove w i j hji] at hj
  obtain ⟨h1, h2⟩ := h j t hj
  refine ⟨?_, ?_⟩
  · intro p s hp hs
    obtain ⟨u, q, hu, hq, hb⟩ := h1 p s hp hs
    have hsi : ¬ s = i := (hno j t hj hji).1 p s hp hs
    exact ⟨u, q, by rw [store_lookup_remove w i s hsi]; exact hu, hq, hb⟩
  · intro p r hp hr
    obtain ⟨u, q, hu, hq, hb⟩ := h2 p r hp hr
    have hri : ¬ r = i := (hno j t hj hji).2 p r hp hr
    exact ⟨u, q, by rw [store_lookup_remove w i r hri]; exact hu, hq, hb⟩

theorem consistent_free_sco (w : List (Nat × BaTransport)) (i : Nat)
    (t : BaTransport) (p : ScoPayload) (r : Nat)
    (h : rfcomm_sco_consistent w)
    (hl : store_lookup w i = some t)
    (hpay : t.payload = TransportPayload.sco p)
    (hr : p.rfcomm = some r) :
    rfcomm_sco_consistent (store_remove (store_update w r clear_sco_ref) i) := by
  obtain ⟨u0, q0, hu0, hq0, hb0⟩ := (h i t hl).2 p r hpay hr
  have hri : ¬ r = i := by
    intro he
    rw [he, hl] at hu0
    have hue : t = u0 := Option.some.inj hu0
    rw [← hue, hpay] at hq0
    exact TransportPayload.noConfusion hq0
  intro j tj hj
  have hji : ¬ j = i := by
    intro he
    rw [he, store_lookup_remove_self] at hj
    exact Option.noConfusion hj
  rw [store_lookup_remove _ i j hji, store_lookup_update w r clear_sco_ref j] at hj
  by_cases hjr : j = r
  · rw [if_pos hjr, hjr, hu0] at hj
    have htj : tj = clear_sco_ref u0 := by simpa using hj.symm
    have hpayj : tj.payload = TransportPayload.rfcomm { q0 with sco := none } := by
      rw [htj]
      simp [clear_sco_ref, clear_sco_payload, hq0]
    refine ⟨?_, ?_⟩
    · intro p2 s2 hp2 hs2
      rw [hpayj] at hp2
      have hp2e : { q0 with sco := none } = p2 := by injection hp2
      rw [← hp2e] at hs2
      simp at hs2
    · intro p2 r2 hp2 _hr2
      rw [hpayj] at hp2
      exact TransportPayload.noConfusion hp2
  · rw [if_neg hjr] at hj
    obtain ⟨h1, h2⟩ := h j tj hj
    refine ⟨?_, ?_⟩
    · intro p2 s2 hp2 hs2
      obtain ⟨u, q, hu, hq, hb⟩ := h1 p2 s2 hp2 hs2
      have hs2r : ¬ s2 = r := by
        intro he
        rw [he, hu0] at hu
        have hue : u0 = u := Option.some.inj hu
        rw [← hue, hq0] at hq
        exact TransportPayload.noConfusion hq
      have hs2i : ¬ s2 = i := by
        intro he
        rw [he, hl] at hu
        have hue : t = u := Option.some.inj hu
        rw [← hue, hpay] at hq
        have hqe : p = q := by injection hq
        rw [← hqe, hr] at hb
        exact hjr (Option.some.inj hb).symm
      refine ⟨u, q, ?_, hq, hb⟩
      rw [store_lookup_remove _ i s2 hs2i,
        store_lookup_update w r clear_sco_ref s2, if_neg hs2r]
      exact hu
    · intro p2 r2 hp2 hr2
      obtain ⟨u, q, hu, hq, hb⟩ := h2 p2 r2 hp2 hr2
      have hr2r : ¬ r2 = r := by
        intro he
        rw [he, hu0] at hu
        have hue : u0 = u := Option.some.inj hu
        rw [← hue] at hq
        have hqe : q0 = q := by
          rw [hq0] at hq
          injection hq
        rw [← hqe, hb0] at hb
        exact hji (Option.some.inj hb).symm
      have hr2i : ¬ r2 = i := by
        intro he
        rw [he, hl] at hu
        have hue : t = u := Option.some.inj hu
        rw [← hue, hpay] at hq
        exact TransportPayload.noConfusion hq
      refine ⟨u, q, ?_, hq, hb⟩
      rw [store_lookup_remove _ i r2 hr2i,
        store_lookup_update w r clear_sco_ref r2, if_neg hr2r]
      exact hu

theorem consistent_free_rfcomm (w : List (Nat × BaTransport)) (i : Nat)
    (t : BaTransport) (p : RfcommPayload) (s : Nat)
    (h : rfcomm_sco_consistent w)
    (hl : store_lookup w i = some t)
    (hpay : t.payload = TransportPayload.rfcomm p)
    (hs : p.sco = some s) :
    rfcomm_sco_consistent
      (store_remove (store_update w s clear_rfcomm_ref) i) := by
  obtain ⟨u0, q0, hu0, hq0, hb0⟩ := (h i t hl).1 p s hpay hs
  have hsi : ¬ s = i := by
    intro he
    rw [he, hl] at hu0
    have hue : t = u0 := Option.some.inj hu0
    rw [← hue, hpay] at hq0
    exact TransportPayload.noConfusion hq0
  intro j tj hj
  have hji : ¬ j = i := by
    intro he
    rw [he, store_lookup_remove_self] at hj
    exact Option.noConfusion hj
  rw [store_lookup_remove _ i j hji,
    store_lookup_update w s clear_rfcomm_ref j] at hj
  by_cases hjs : j = s
  · rw [if_pos hjs, hjs, hu0] at hj
    have htj : tj = clear_rfcomm_ref u0 := by simpa using hj.symm
    have hpayj : tj.payload = TransportPayload.sco { q0 with rfcomm := none } := by
      rw [htj]
      simp [clear_rfcomm_ref, clear_rfcomm_payload, hq0]
    refine ⟨?_, ?_⟩
    · intro p2 s2 hp2 _hs2
      rw [hpayj] at hp2
      exact TransportPayload.noConfusion hp2
    · intro p2 r2 hp2 hr2
      rw [hpayj] at hp2
      have hp2e : { q0 with rfcomm := none } = p2 := by injection hp2
      rw [← hp2e] at hr2
      simp at hr2
  · rw [if_neg hjs] at hj
    obtain ⟨h1, h2⟩ := h j tj hj
    refine ⟨?_, ?_⟩
    · intro p2 s2 hp2 hs2
      obtain ⟨u, q, hu, hq, hb⟩ := h1 p2 s2 hp2 hs2
      have hs2s : ¬ s2 = s := by
        intro he
        rw [he, hu0] at hu
        have hue : u0 = u := Option.some.inj hu
        rw [← hue] at hq
        have hqe : q0 = q := by
          rw [hq0] at hq
          injection hq
        rw [← hqe, hb0] at hb
        exact hji (Option.some.inj hb).symm
      have hs2i : ¬ s2 = i := by
        intro he
        rw [he, hl] at hu
        have hue : t = u := Option.some.inj hu
        rw [← hue, hpay] at hq
        exact TransportPayload.noConfusion hq
      refine ⟨u, q, ?_, hq, hb⟩
      rw [store_lookup_remove _ i s2 hs2i,
        store_lookup_update w s clear_rfcomm_ref s2, if_neg hs2s]
      exact hu
    · intro p2 r2 hp2 hr2
      obtain ⟨u, q, hu, hq, hb⟩ := h2 p2 r2 hp2 hr2
      have hr2s : ¬ r2 = s := by
        intro he
        rw [he, hu0] at hu
        have hue : u0 = u := Option.some.inj hu
        rw [← hue, hq0] at hq
        exact TransportPayload.noConfusion hq
      have hr2i : ¬ r2 = i := by
        intro he
        rw [he, hl] at hu
        have hue : t = u := Option.some.inj hu
        rw [← hue, hpay] at hq
        have hqe : p = q := by injection hq
        rw [← hqe, hs] at hb
        exact hjs (Option.some.inj hb).symm
      refine ⟨u, q, ?_, hq, hb⟩
      rw [store_lookup_remove _ i r2 hr2i,
        store_lookup_update w s clear_rfcomm_ref r2, if_neg hr2s]
      exact hu

theorem free_preserves_consistent (w : List (Nat × BaTransport)) (i : Nat)
    (h : rfcomm_sco_consistent w) :
    rfcomm_sco_consistent (transport_free w i) := by
  cases hl : store_lookup w i with
  | none =>
      have hf : transport_free w i = w := by simp [transport_free, hl]
      rw [hf]
      exact h
  | some t =>
      cases hpay : t.payload with
      | a2dp a =>
          have hf : transport_free w i = store_remove w i := by
            simp [transport_free, hl, hpay]
          rw [hf]
          refine consistent_remove w i h ?_
          intro j tj hj _hji
          refine ⟨?_, ?_⟩
          · intro p2 s2 hp2 hs2 he
            obtain ⟨u, q, hu, hq, hb⟩ := (h j tj hj).1 p2 s2 hp2 hs2
            rw [he, hl] at hu
            have hue : t = u := Option.some.inj hu
            rw [← hue, hpay] at hq
            exact TransportPayload.noConfusion hq
          · intro p2 r2 hp2 hr2 he
            obtain ⟨u, q, hu, hq, hb⟩ := (h j tj hj).2 p2 r2 hp2 hr2
            rw [he, hl] at hu
            have hue : t = u := Option.some.inj hu
            rw [← hue, hpay] at hq
            exact TransportPayload.noConfusion hq
      | rfcomm p =>
          cases hs : p.sco with
          | none =>
              have hf : transport_free w i = store_remove w i := by
                simp [transport_free, hl, hpay, hs]
              rw [hf]
              refine consistent_remove w i h ?_
              intro j tj hj _hji
              refine ⟨?_, ?_⟩
              · intro p2 s2 hp2 hs2 he
                obtain ⟨u, q, hu, hq, hb⟩ := (h j tj hj).1 p2 s2 hp2 hs2
                rw [he, hl] at hu
                have hue : t = u := Option.some.inj hu
                rw [← hue, hpay] at hq
                exact TransportPayload.noConfusion hq
              · intro p2 r2 hp2 hr2 he
                obtain ⟨u, q, hu, hq, hb⟩ := (h j tj hj).2 p2 r2 hp2 hr2
                rw [he, hl] at hu
                have hue : t = u := Option.some.inj hu
                rw [← hue, hpay] at hq
                have hqe : p = q := by injection hq
                rw [← hqe, hs] at hb
                exact Option.noConfusion hb
          | some s =>
              have hf : transport_free w i =
                  store_remove (store_update w s clear_rfcomm_ref) i := by
                simp [transport_free, hl, hpay, hs]
              rw [hf]
              exact consistent_free_rfcomm w i t p s h hl hpay hs
      | sco p =>
          cases hr : p.rfcomm with
          | none =>
              have hf : transport_free w i = store_remove w i := by
                simp [transport_free, hl, hpay, hr]
              rw [hf]
              refine consistent_remove w i h ?_
              intro j tj hj _hji
              refine ⟨?_, ?_⟩
              · intro p2 s2 hp2 hs2 he
                obtain ⟨u, q, hu, hq, hb⟩ := (h j tj hj).1 p2 s2 hp2 hs2
                rw [he, hl] at hu
                have hue : t = u := Option.some.inj hu
                rw [← hue, hpay] at hq
                have hqe : p = q := by injection hq
                rw [← hqe, hr] at hb
                exact Option.noConfusion hb
              · intro p2 r2 hp2 hr2 he
                obtain ⟨u, q, hu, hq, hb⟩ := (h j tj hj).2 p2 r2 hp2 hr2
                rw [he, hl] at hu
                have hue : t = u := Option.some.inj hu
                rw [← hue, hpay] at hq
                exact TransportPayload.noConfusion hq
          | some r =>
              have hf : transport_free w i =
                  store_remove (store_update w r clear_sco_ref) i := by
                simp [transport_free, hl, hpay, hr]
              rw [hf]
              exact consistent_free_sco w i t p r h hl hpay hr

theorem free_clears_parent (w : List (Nat × BaTransport)) (i : Nat)
    (h : rfcomm_sco_consistent w) :
    ∀ t p r, store_lookup w i = some t →
      t.payload = TransportPayload.sco p → p.rfcomm = some r →
      ∀ u q, store_lookup (transport_free w i) r = some u →
        u.payload = TransportPayload.rfcomm q → q.sco = none := by
  intro t p r hl hpay hr u q hu hq
  obtain ⟨u0, q0, hu0, hq0, hb0⟩ := (h i t hl).2 p r hpay hr
  have hri : ¬ r = i := by
    intro he
    rw [he, hl] at hu0
    have hue : t = u0 := Option.some.inj hu0
    rw [← hue, hpay] at hq0
    exact TransportPayload.noConfusion hq0
  have hf : transport_free w i =
      store_remove (store_update w r clear_sco_ref) i := by
    simp [transport_free, hl, hpay, hr]
  rw [hf, store_lookup_remove _ i r hri,
    store_lookup_update w r clear_sco_ref r, if_pos rfl, hu0] at hu
  have hue : u = clear_sco_ref u0 := by simpa using hu.symm
  rw [hue] at hq
  have hcp : (clear_sco_ref u0).payload =
      TransportPayload.rfcomm { q0 with sco := none } := by
    simp [clear_sco_ref, clear_sco_payload, hq0]
  rw [hcp] at hq
  have hqe : { q0 with sco := none } = q := by injection hq
  rw [← hqe]

/-- Claim C3: for every registry of transports in which the RFCOMM-SCO
cross-links are mutually consistent (an RFCOMM transport's `sco` field
points to a SCO transport exactly when that SCO transport's `rfcomm`
field points back, or both are absent), destroying any transport with
`transport_free` keeps the cross-links mutually consistent; in
particular, destroying a SCO transport clears the parent RFCOMM
transport's `sco` reference so it never dangles. -/
theorem rfcomm_sco_crosslink (w : List (Nat × BaTransport)) (i : Nat)
    (h : rfcomm_sco_consistent w) :
    rfcomm_sco_consistent (transport_free w i) ∧
      ∀ t p r, store_lookup w i = some t →
        t.payload = TransportPayload.sco p → p.rfcomm = some r →
        ∀ u q, store_lookup (transport_free w i) r = some u →
          u.payload = TransportPayload.rfcomm q → q.sco = none :=
  ⟨free_preserves_consistent w i h, free_clears_parent w i h⟩

theorem linkDemoStore_consistent : rfcomm_sco_consistent linkDemoStore := by
  intro i t h
  simp only [linkDemoStore, store_lookup] at h
  split_ifs at h with h0 h1
  · subst h0
    have ht : rfcommDemo = t := Option.some.inj h
    subst ht
    refine ⟨?_, ?_⟩
    · intro p s hp hs
      have hde : rfcommDemo.payload =
          TransportPayload.rfcomm rfcommDemoPayload := rfl
      rw [hde] at hp
      have hpe : rfcommDemoPayload = p := by injection hp
      rw [← hpe] at hs
      have hs1 : rfcommDemoPayload.sco = some 1 := rfl
      rw [hs1] at hs
      have hse : s = 1 := (Option.some.inj hs).symm
      subst hse
      exact ⟨scoDemo, scoDemoPayload, by decide, rfl, rfl⟩
    · intro p r hp _hr
      have hde : rfcommDemo.payload =
          TransportPayload.rfcomm rfcommDemoPayload := rfl
      rw [hde] at hp
      exact TransportPayload.noConfusion hp
  · subst h1
    have ht : scoDemo = t := Option.some.inj h
    subst ht
    refine ⟨?_, ?_⟩
    · intro p s hp _hs
      have hde : scoDemo.payload = TransportPayload.sco scoDemoPayload := rfl
      rw [hde] at hp
      exact TransportPayload.noConfusion hp
    · intro p r hp hr
      have hde : scoDemo.payload = TransportPayload.sco scoDemoPayload := rfl
      rw [hde] at hp
      have hpe : scoDemoPayload = p := by injection hp
      rw [← hpe] at hr
      have hr0 : scoDemoPayload.rfcomm = some 0 := rfl
      rw [hr0] at hr
      have hre : r = 0 := (Option.some.inj hr).symm
      subst hre
      exact ⟨rfcommDemo, rfcommDemoPayload, by decide, rfl, rfl⟩

/-- Witness for C3: a concrete store with one mutually linked
RFCOMM/SCO pair; destroying the SCO transport (handle 1) keeps the
store consistent and clears the RFCOMM parent's `sco` reference. -/
theorem rfcomm_sco_crosslink_witness :
    rfcomm_sco_consistent linkDemoStore ∧
      (rfcomm_sco_consistent (transport_free linkDemoStore 1) ∧
        ∀ t p r, store_lookup linkDemoStore 1 = some t →
          t.payload = TransportPayload.sco p → p.rfcomm = some r →
          ∀ u q, store_lookup (transport_free linkDemoStore 1) r = some u →
            u.payload = TransportPayload.rfcomm q → q.sco = none) :=
  ⟨linkDemoStore_consistent,
    rfcomm_sco_crosslink linkDemoStore 1 linkDemoStore_consistent⟩

/-- Witness for C4: freeing the device that owns the transport under
the sample path makes a subsequent lookup of that path fail. -/
theorem device_free_lookup_none_witness :
    (∀ d ∈ demoRegistry,
        transports_lookup d.transports "/org/bluez/hci0/dev_00/fd1" ≠ none →
          d.addr = 1) ∧
      transport_lookup (device_free demoRegistry 1)
          "/org/bluez/hci0/dev_00/fd1" = none :=
  ⟨by decide,
    device_free_lookup_none demoRegistry 1 "/org/bluez/hci0/dev_00/fd1"
      (by decide)⟩

end BlueALSA
